import Mathlib

/-!
Shallow embedding of the momo P2P signaling session
(src/p2p/p2p_websocket_session.cpp) and proofs of the claims of the spec
about it.

The embedding models:
  - JSON documents as an inductive `Json` type, with accessors mirroring
    the nlohmann usage in `OnRead` (`operator[]` + `get<T>()` under a
    `catch (type_error)` which turns any failure into "drop the message");
  - the session state (`Session`): the nullable peer-connection handle
    `connection`, the stored ICE connection state `rtc_state`, the
    watchdog, and a fresh-handle counter standing for the identity of the
    `shared_ptr<RTCConnection>` values handed out by `CreateRTCConnection`;
  - the observable effects of each handler as a list of `Event`s: adapter
    calls, handle releases, and outbound sends.
-/

/-- JSON values, the message envelope of the wire protocol. -/
inductive Json where
  | null : Json
  | bool : Bool → Json
  | num : Int → Json
  | str : String → Json
  | arr : List Json → Json
  | obj : List (String × Json) → Json

/-- Key lookup in a JSON object field list (first match wins). -/
def lookupField : List (String × Json) → String → Option Json
  | [], _ => none
  | (k, v) :: rest, key => if k = key then some v else lookupField rest key

/-- Reading `doc[key]` as the code does: succeeds only on an object that
has the key; any other case ends in the `catch (json::type_error)` of
`OnRead`, i.e. the message is dropped. -/
def Json.getField : Json → String → Option Json
  | .obj fields, key => lookupField fields key
  | _, _ => none

/-- The call `.get<std::string>()` of the code: succeeds only on a JSON string. -/
def Json.asString : Json → Option String
  | .str s => some s
  | _ => none

/-- The call `.get<int>()` of the code: succeeds only on a JSON integer. -/
def Json.asInt : Json → Option Int
  | .num n => some n
  | _ => none

/-- The `recv_message["type"].get<std::string>()` read at the top of
`OnRead`, with the surrounding try/catch folded into `Option`. -/
def typeOf (doc : Json) : Option String :=
  (doc.getField "type").bind Json.asString

/-- The `recv_message["sdp"].get<std::string>()` read of the offer and
answer branches of `OnRead`. -/
def sdpOf (doc : Json) : Option String :=
  (doc.getField "sdp").bind Json.asString

/-- The candidate branch of `OnRead`: `ice = recv_message["ice"]`, then
`sdpMid` (string), `sdpMLineIndex` (int), `candidate` (string), in that
order, all under one try/catch. -/
def iceOf (doc : Json) : Option (String × Int × String) := do
  let ice ← doc.getField "ice"
  let mid ← (ice.getField "sdpMid").bind Json.asString
  let idx ← (ice.getField "sdpMLineIndex").bind Json.asInt
  let cand ← (ice.getField "candidate").bind Json.asString
  pure (mid, idx, cand)

/-- The WebRTC ICE connection states reported to
`onIceConnectionStateChange`. -/
inductive IceConnectionState where
  | stateNew
  | checking
  | connected
  | completed
  | disconnected
  | failed
  | closed
deriving DecidableEq, Repr

/-- Modelled from the spec: the watchdog timer class is not under src/
(only its call sites `Enable(30)` and `Reset()` are), so its state is
taken from spec section 4.3: `Enable(intervalSeconds)` arms a repeating
deadline, `Reset()` pushes the deadline forward by the same interval. -/
structure WatchdogState where
  enabled : Bool
  interval : Nat
  remaining : Nat
deriving DecidableEq, Repr

/-- Modelled from the spec: `Enable(intervalSeconds)` arms the deadline
at the given interval. -/
def WatchdogState.enable (_w : WatchdogState) (n : Nat) : WatchdogState :=
  { enabled := true, interval := n, remaining := n }

/-- Modelled from the spec: `Reset()` pushes the deadline forward by the
same interval without changing callback identity. -/
def WatchdogState.reset (w : WatchdogState) : WatchdogState :=
  { w with remaining := w.interval }

/-- The `ConnectionSettings` field used by `CreateRTCConnection`. -/
structure ConnectionSettings where
  no_google_stun : Bool
deriving DecidableEq, Repr

/-- The ICE server list that `CreateRTCConnection` puts into
`rtc_config.servers`. -/
def serversOf (cs : ConnectionSettings) : List String :=
  if !cs.no_google_stun then ["stun:stun.l.google.com:19302"] else []

/-- The state of one `P2PWebsocketSession`: the nullable peer-connection
handle `connection_`, the stored `rtc_state_`, the `watchdog_`, and a
counter producing a fresh identity for each `RTCConnection` created. -/
structure Session where
  connection : Option Nat
  rtc_state : IceConnectionState
  watchdog : WatchdogState
  nextHandle : Nat

/-- Observable effects of a handler: calls into the adapter
(RTCManager / RTCConnection), release of a handle (the `shared_ptr`
dropping its referent on reassignment or `connection_ = nullptr`),
and outbound sends (`ws_->SendText`). -/
inductive Event where
  | createConnection : List String → Nat → Event
  | initTracks : Nat → Event
  | setOffer : Nat → String → Event
  | createAnswer : Nat → Event
  | setAnswer : Nat → String → Event
  | addIceCandidate : Nat → String → Int → String → Event
  | releaseConnection : Nat → Event
  | send : Json → Event

/-- Recognizer for `createConnection` events. -/
def isCreateConn : Event → Bool
  | .createConnection _ _ => true
  | _ => false

/-- Recognizer for `releaseConnection` events. -/
def isReleaseConn : Event → Bool
  | .releaseConnection _ => true
  | _ => false

/-- Recognizer for outbound sends. -/
def isSendEv : Event → Bool
  | .send _ => true
  | _ => false

/-- The `{"type":"ping"}` message of `OnWatchdogExpired`. -/
def pingMsg : Json :=
  Json.obj [("type", Json.str "ping")]

/-- The `{"type":"accept","isExistUser":true}` message of the register
branch. -/
def acceptMsg : Json :=
  Json.obj [("type", Json.str "accept"), ("isExistUser", Json.bool true)]

/-- The `{"type":"answer","sdp":sdp}` message built in the createAnswer
callback. -/
def answerMsg (sdp : String) : Json :=
  Json.obj [("type", Json.str "answer"), ("sdp", Json.str sdp)]

/-- The candidate message built in `onIceCandidate`:
`{"type":"candidate"}` with `ice = {candidate, sdpMLineIndex, sdpMid}`. -/
def candMsg (sdp_mid : String) (sdp_mlineindex : Int) (sdp : String) : Json :=
  Json.obj [("type", Json.str "candidate"),
            ("ice", Json.obj [("candidate", Json.str sdp),
                              ("sdpMLineIndex", Json.num sdp_mlineindex),
                              ("sdpMid", Json.str sdp_mid)])]

/-- `P2PWebsocketSession::CreateRTCConnection`: builds the RTC config
(Google STUN unless `no_google_stun`), calls
`rtc_manager_->createConnection` then `rtc_manager_->initTracks`, and
returns the fresh handle. -/
def createRTCConnection (cs : ConnectionSettings) (s : Session) :
    Nat × Session × List Event :=
  let h := s.nextHandle
  (h, { s with nextHandle := h + 1 },
   [Event.createConnection (serversOf cs) h, Event.initTracks h])

/-- The release performed by assigning over `connection_` (the old
`shared_ptr` value, if any, is dropped). -/
def releaseOf (c : Option Nat) : List Event :=
  match c with
  | some old => [Event.releaseConnection old]
  | none => []

/-- The body of `P2PWebsocketSession::OnRead` after a successful JSON
parse: dispatch on the `type` string, mirroring the if/else chain of the
source, with the field extraction and connection guard of each branch in
the order of the source. Returns the new session state and the emitted events. -/
def processMessage (cs : ConnectionSettings) (s : Session) (doc : Json) :
    Session × List Event :=
  match typeOf doc with
  | none => (s, [])
  | some t =>
    if t = "offer" then
      match sdpOf doc with
      | none => (s, [])
      | some sdp =>
        let r := createRTCConnection cs s
        ({ r.2.1 with connection := some r.1 },
         r.2.2 ++ releaseOf s.connection ++ [Event.setOffer r.1 sdp])
    else if t = "answer" then
      match s.connection with
      | none => (s, [])
      | some h =>
        match sdpOf doc with
        | none => (s, [])
        | some sdp => (s, [Event.setAnswer h sdp])
    else if t = "candidate" then
      match s.connection with
      | none => (s, [])
      | some h =>
        match iceOf doc with
        | none => (s, [])
        | some (mid, idx, cand) => (s, [Event.addIceCandidate h mid idx cand])
    else if t = "close" ∨ t = "bye" then
      ({ s with connection := none }, releaseOf s.connection)
    else if t = "register" then
      ({ s with watchdog := s.watchdog.enable 30 }, [Event.send acceptMsg])
    else (s, [])

/-- `OnRead` including the `json::parse` try/catch: a parse error
(`Except.error`) returns without doing anything. -/
def onRead (cs : ConnectionSettings) (s : Session) (input : Except Unit Json) :
    Session × List Event :=
  match input with
  | .error _ => (s, [])
  | .ok doc => processMessage cs s doc

/-- The on-success continuation passed to `setOffer`: it dereferences
`connection_` at callback time to call `createAnswer`; `none` stands for
the null dereference that would occur if the handle were gone. -/
def onSetOfferSuccess (s : Session) : Option (Session × List Event) :=
  match s.connection with
  | some h => some (s, [Event.createAnswer h])
  | none => none

/-- The continuation passed to `createAnswer`: serializes the local
description and sends one `answer` message. -/
def onCreateAnswerSuccess (s : Session) (sdp : String) : Session × List Event :=
  (s, [Event.send (answerMsg sdp)])

/-- `P2PWebsocketSession::onIceCandidate`: builds the candidate message
and sends it. Note the source has no guard on `connection_`. -/
def onIceCandidate (s : Session) (sdp_mid : String) (sdp_mlineindex : Int)
    (sdp : String) : Session × List Event :=
  (s, [Event.send (candMsg sdp_mid sdp_mlineindex sdp)])

/-- `P2PWebsocketSession::onIceConnectionStateChange`: stores the new
state (after logging); nothing else. -/
def onIceConnectionStateChange (s : Session) (new_state : IceConnectionState) :
    Session × List Event :=
  ({ s with rtc_state := new_state }, [])

/-- `P2PWebsocketSession::OnWatchdogExpired`: sends `{"type":"ping"}`
and calls `watchdog_.Reset()`. -/
def onWatchdogExpired (s : Session) : Session × List Event :=
  ({ s with watchdog := s.watchdog.reset }, [Event.send pingMsg])

/-- Processing a list of inbound documents in arrival order,
accumulating the emitted events. -/
def processAll (cs : ConnectionSettings) (s : Session) :
    List Json → Session × List Event
  | [] => (s, [])
  | d :: ds =>
    let r := processMessage cs s d
    let r2 := processAll cs r.1 ds
    (r2.1, r.2 ++ r2.2)

/-- Delivering a list of `onIceCandidate` callbacks in order. -/
def deliverCandidates (s : Session) :
    List (String × Int × String) → Session × List Event
  | [] => (s, [])
  | (mid, idx, sdp) :: rest =>
    let r := onIceCandidate s mid idx sdp
    let r2 := deliverCandidates r.1 rest
    (r2.1, r.2 ++ r2.2)

/-- Firing the watchdog expiry callback `n` times in a row. -/
def expireN : Nat → Session → Session × List Event
  | 0, s => (s, [])
  | n + 1, s =>
    let r := onWatchdogExpired s
    let r2 := expireN n r.1
    (r2.1, r.2 ++ r2.2)

/-- A well-formed offer: `type` decodes to "offer" and `sdp` decodes to
a string. -/
def IsOffer (doc : Json) : Prop :=
  typeOf doc = some "offer" ∧ sdpOf doc ≠ none

instance (doc : Json) : Decidable (IsOffer doc) := by
  unfold IsOffer
  infer_instance

/-- A malformed inbound document, in the sense of claim C3: the `type`
field is absent or not a string, or the type is a known variant whose
required fields fail to decode (the exact reads the source performs). -/
def MalformedDoc (doc : Json) : Prop :=
  typeOf doc = none ∨
  (typeOf doc = some "offer" ∧ sdpOf doc = none) ∨
  (typeOf doc = some "answer" ∧ sdpOf doc = none) ∨
  (typeOf doc = some "candidate" ∧ iceOf doc = none)

instance (doc : Json) : Decidable (MalformedDoc doc) := by
  unfold MalformedDoc
  infer_instance

/-! Concrete fixtures used by the witnesses. -/

/-- Default connection settings (Google STUN enabled). -/
def cs0 : ConnectionSettings := { no_google_stun := false }

/-- A fresh session: no connection, watchdog disarmed. -/
def s0 : Session :=
  { connection := none
    rtc_state := IceConnectionState.stateNew
    watchdog := { enabled := false, interval := 0, remaining := 0 }
    nextHandle := 0 }

/-- A session that has released its peer-connection handle. -/
def sReleased : Session :=
  { connection := none
    rtc_state := IceConnectionState.closed
    watchdog := { enabled := false, interval := 0, remaining := 0 }
    nextHandle := 1 }

/-- A wire document `{"type":"register"}`. -/
def regDoc : Json := Json.obj [("type", Json.str "register")]

/-- A wire document `{"type":"offer","sdp":"v=0"}`. -/
def offerDoc : Json :=
  Json.obj [("type", Json.str "offer"), ("sdp", Json.str "v=0")]

/-- A wire document `{"type":"answer","sdp":"v=0"}`. -/
def ansDoc : Json :=
  Json.obj [("type", Json.str "answer"), ("sdp", Json.str "v=0")]

/-- A wire document `{"type":"close"}`. -/
def closeDoc : Json := Json.obj [("type", Json.str "close")]

/-- A malformed wire document `{"type":3}` (type field not a string). -/
def malDoc : Json := Json.obj [("type", Json.num 3)]

/-- C9: onIceConnectionStateChange stores the new state and changes
nothing else: no event is emitted, and connection, watchdog and the
handle counter are untouched. -/
theorem iceStateChange_updates_only_rtc_state
    (s : Session) (ns : IceConnectionState) :
    (onIceConnectionStateChange s ns).1.rtc_state = ns ∧
    (onIceConnectionStateChange s ns).1.connection = s.connection ∧
    (onIceConnectionStateChange s ns).1.watchdog = s.watchdog ∧
    (onIceConnectionStateChange s ns).1.nextHandle = s.nextHandle ∧
    (onIceConnectionStateChange s ns).2 = [] := by
  simp [onIceConnectionStateChange]

/-- C7: every watchdog expiry emits exactly one ping and re-arms the
deadline at the configured interval; firing it any number of times emits
exactly that many pings, never releases the connection handle and never
changes anything but the watchdog deadline. -/
theorem watchdog_expiry_pings_and_rearms (n : Nat) (s : Session) :
    (expireN n s).2 = List.replicate n (Event.send pingMsg) ∧
    (expireN n s).1.connection = s.connection ∧
    (expireN n s).1.rtc_state = s.rtc_state ∧
    (expireN n s).1.watchdog.enabled = s.watchdog.enabled ∧
    (expireN n s).1.watchdog.interval = s.watchdog.interval ∧
    (expireN n s).1.watchdog.remaining =
      (if n = 0 then s.watchdog.remaining else s.watchdog.interval) := by
  induction n generalizing s with
  | zero => simp [expireN]
  | succ n ih =>
    obtain ⟨h1, h2, h3, h4, h5, h6⟩ := ih ({ s with watchdog := s.watchdog.reset })
    have e1 : (expireN (n + 1) s).2 =
        Event.send pingMsg :: (expireN n { s with watchdog := s.watchdog.reset }).2 := rfl
    have e2 : (expireN (n + 1) s).1 =
        (expireN n { s with watchdog := s.watchdog.reset }).1 := rfl
    refine ⟨?_, ?_, ?_, ?_, ?_, ?_⟩
    · rw [e1, h1, List.replicate_succ]
    · exact h2
    · exact h3
    · exact h4
    · exact h5
    · rw [e2, h6]
      cases n <;> simp [WatchdogState.reset]

/-- C8: delivering any sequence of onIceCandidate callbacks sends
exactly one candidate message per callback, immediately and in callback
order, carrying exactly the values of the callback, and leaves the session
state unchanged. -/
theorem iceCandidates_sent_one_each_in_order
    (s : Session) (cands : List (String × Int × String)) :
    (deliverCandidates s cands).2 =
      cands.map (fun c => Event.send (candMsg c.1 c.2.1 c.2.2)) ∧
    (deliverCandidates s cands).1 = s := by
  induction cands generalizing s with
  | nil => simp [deliverCandidates]
  | cons c rest ih =>
    obtain ⟨mid, idx, sdp⟩ := c
    simp [deliverCandidates, onIceCandidate, ih]

/-- C5 counterexample: in a session whose handle has been released
(`connection = none`), an onIceCandidate callback still produces an
outbound message — the source has no guard on `connection_`. -/
theorem iceCandidate_after_release_cex :
    sReleased.connection = none ∧
    (onIceCandidate sReleased "mid0" 0 "cand0").2 ≠ [] := by
  exact ⟨rfl, by simp [onIceCandidate]⟩

/-- C5 amended: onIceCandidate is unguarded — whatever the session
state, a callback sends exactly one candidate message, even after the
peer-connection handle has been released. -/
theorem iceCandidate_unguarded_always_sends
    (s : Session) (mid : String) (idx : Int) (sdp : String) :
    onIceCandidate s mid idx sdp = (s, [Event.send (candMsg mid idx sdp)]) :=
  rfl

/-- C6: a `register` message makes the session send exactly one
`{"type":"accept","isExistUser":true}` and arm the watchdog at a fixed
30-second interval, with no other state change (connection, rtc_state
and handle counter are untouched by the returned update). -/
theorem register_sends_accept_and_arms_watchdog
    (cs : ConnectionSettings) (s : Session) (doc : Json)
    (htype : typeOf doc = some "register") :
    processMessage cs s doc =
      ({ s with watchdog := s.watchdog.enable 30 }, [Event.send acceptMsg]) := by
  simp [processMessage, htype]

/-- C6 witness: the register flow at a concrete fresh session. -/
theorem register_witness :
    processMessage cs0 s0 regDoc =
      ({ s0 with watchdog := s0.watchdog.enable 30 }, [Event.send acceptMsg]) :=
  register_sends_accept_and_arms_watchdog cs0 s0 regDoc rfl

/-- C4: an `answer` or `candidate` message processed while the
peer-connection handle is null is silently ignored: no event (adapter
call or send) and the state is returned unchanged. -/
theorem answer_candidate_without_connection_ignored
    (cs : ConnectionSettings) (s : Session) (doc : Json)
    (hconn : s.connection = none)
    (htype : typeOf doc = some "answer" ∨ typeOf doc = some "candidate") :
    processMessage cs s doc = (s, []) := by
  rcases htype with h | h <;> simp [processMessage, h, hconn]

/-- C4 witness: a well-formed answer at a fresh (no-connection)
session. -/
theorem answer_without_connection_witness :
    processMessage cs0 s0 ansDoc = (s0, []) :=
  answer_candidate_without_connection_ignored cs0 s0 ansDoc rfl (Or.inl rfl)

/-- C10: `close` or `bye` with no existing peer-connection handle is a
silent no-op: the handle stays null, nothing is sent, no adapter call or
release happens, and the state is unchanged. -/
theorem close_bye_without_connection_noop
    (cs : ConnectionSettings) (s : Session) (doc : Json)
    (hconn : s.connection = none)
    (htype : typeOf doc = some "close" ∨ typeOf doc = some "bye") :
    processMessage cs s doc = (s, []) := by
  obtain ⟨c, rs, w, nh⟩ := s
  simp only [Session.connection] at hconn
  subst hconn
  rcases htype with h | h <;> simp [processMessage, h, releaseOf]

/-- C10 witness: a `close` at a concrete fresh session. -/
theorem close_without_connection_witness :
    processMessage cs0 s0 closeDoc = (s0, []) :=
  close_bye_without_connection_noop cs0 s0 closeDoc rfl (Or.inl rfl)

/-- C3: any inbound text that fails to parse, or parses to a document
whose `type` is absent or not a string, or whose known-typed required
fields fail to decode, is dropped: no event is produced and the session
state is returned exactly as it was. -/
theorem malformed_message_dropped
    (cs : ConnectionSettings) (s : Session) (input : Except Unit Json)
    (h : input = Except.error () ∨
         ∃ doc, input = Except.ok doc ∧ MalformedDoc doc) :
    onRead cs s input = (s, []) := by
  rcases h with h | ⟨doc, hin, hmal⟩
  · subst h; rfl
  · subst hin
    rcases hmal with h1 | ⟨h1, h2⟩ | ⟨h1, h2⟩ | ⟨h1, h2⟩
    · simp [onRead, processMessage, h1]
    · simp [onRead, processMessage, h1, h2]
    · cases hc : s.connection <;> simp [onRead, processMessage, h1, h2, hc]
    · cases hc : s.connection <;> simp [onRead, processMessage, h1, h2, hc]

/-- C3 witness: the document with a non-string `type` field is dropped
at a concrete session. -/
theorem malformed_message_witness :
    onRead cs0 s0 (Except.ok malDoc) = (s0, []) :=
  malformed_message_dropped cs0 s0 (Except.ok malDoc)
    (Or.inr ⟨malDoc, rfl, Or.inl (by decide)⟩)

/-- C1: an `offer` with a string sdp makes the session call
CreateConnection exactly once (followed by initTracks), then SetOffer on
the newly created handle with that sdp as the final action; the offer
processing itself sends nothing; the local-description-ready
continuation calls createAnswer on that handle; and the answer-ready
continuation sends exactly one message, the answer document carrying the
produced sdp. -/
theorem offer_creates_connection_then_answers
    (cs : ConnectionSettings) (s : Session) (doc : Json) (sdp : String)
    (htype : typeOf doc = some "offer")
    (hsdp : sdpOf doc = some sdp) :
    (processMessage cs s doc).2 =
      [Event.createConnection (serversOf cs) s.nextHandle,
       Event.initTracks s.nextHandle]
      ++ releaseOf s.connection
      ++ [Event.setOffer s.nextHandle sdp] ∧
    (processMessage cs s doc).2.countP isCreateConn = 1 ∧
    (processMessage cs s doc).2.countP isSendEv = 0 ∧
    (processMessage cs s doc).1.connection = some s.nextHandle ∧
    onSetOfferSuccess (processMessage cs s doc).1 =
      some ((processMessage cs s doc).1,
            [Event.createAnswer s.nextHandle]) ∧
    ∀ asdp, (onCreateAnswerSuccess (processMessage cs s doc).1 asdp).2 =
      [Event.send (answerMsg asdp)] := by
  cases hc : s.connection <;>
    simp [processMessage, htype, hsdp, createRTCConnection, releaseOf, hc,
          onSetOfferSuccess, onCreateAnswerSuccess, isCreateConn, isSendEv,
          List.countP_cons, List.countP_nil, List.countP_append]

/-- C1 witness: the offer flow at a concrete fresh session. -/
theorem offer_flow_witness :
    (processMessage cs0 s0 offerDoc).2 =
      [Event.createConnection (serversOf cs0) s0.nextHandle,
       Event.initTracks s0.nextHandle]
      ++ releaseOf s0.connection
      ++ [Event.setOffer s0.nextHandle "v=0"] ∧
    (processMessage cs0 s0 offerDoc).2.countP isCreateConn = 1 ∧
    (processMessage cs0 s0 offerDoc).2.countP isSendEv = 0 ∧
    (processMessage cs0 s0 offerDoc).1.connection = some s0.nextHandle ∧
    onSetOfferSuccess (processMessage cs0 s0 offerDoc).1 =
      some ((processMessage cs0 s0 offerDoc).1,
            [Event.createAnswer s0.nextHandle]) ∧
    ∀ asdp, (onCreateAnswerSuccess (processMessage cs0 s0 offerDoc).1 asdp).2 =
      [Event.send (answerMsg asdp)] :=
  offer_creates_connection_then_answers cs0 s0 offerDoc "v=0" rfl rfl

/-- Characterization of processing one well-formed offer: the session
ends up holding the freshly created handle, and the events are
create/initTracks, the release of the prior handle (if any), then
setOffer. -/
theorem processMessage_offer_eq
    (cs : ConnectionSettings) (s : Session) (d : Json) (h : IsOffer d) :
    ∃ sdp, processMessage cs s d =
      ({ s with connection := some s.nextHandle,
                nextHandle := s.nextHandle + 1 },
       [Event.createConnection (serversOf cs) s.nextHandle,
        Event.initTracks s.nextHandle]
       ++ releaseOf s.connection
       ++ [Event.setOffer s.nextHandle sdp]) := by
  obtain ⟨h1, h2⟩ := h
  obtain ⟨sdp, hs⟩ := Option.ne_none_iff_exists'.mp h2
  refine ⟨sdp, ?_⟩
  simp [processMessage, h1, hs, createRTCConnection]

/-- Processing a list of well-formed offers: each offer creates exactly
one fresh handle, releases the previous one when it exists, and the
session ends holding the last handle created. -/
theorem processAll_offers (cs : ConnectionSettings) :
    ∀ (docs : List Json) (s : Session), (∀ d ∈ docs, IsOffer d) →
    ((processAll cs s docs).2.countP isCreateConn = docs.length) ∧
    ((processAll cs s docs).2.countP isReleaseConn =
      docs.length - (if s.connection.isSome then 0 else 1)) ∧
    ((processAll cs s docs).1.nextHandle = s.nextHandle + docs.length) ∧
    ((processAll cs s docs).1.connection =
      if docs.isEmpty then s.connection
      else some (s.nextHandle + docs.length - 1)) := by
  intro docs
  induction docs with
  | nil => intro s _; simp [processAll]
  | cons d ds ih =>
    intro s hall
    obtain ⟨sdp, hpm⟩ :=
      processMessage_offer_eq cs s d (hall d (List.mem_cons_self d ds))
    have ihh := ih ({ s with connection := some s.nextHandle,
                             nextHandle := s.nextHandle + 1 })
      (fun x hx => hall x (List.mem_cons_of_mem d hx))
    obtain ⟨ih1, ih2, ih3, ih4⟩ := ihh
    have e : processAll cs s (d :: ds) =
        ((processAll cs ({ s with connection := some s.nextHandle,
                                  nextHandle := s.nextHandle + 1 }) ds).1,
         ([Event.createConnection (serversOf cs) s.nextHandle,
           Event.initTracks s.nextHandle]
          ++ releaseOf s.connection
          ++ [Event.setOffer s.nextHandle sdp])
         ++ (processAll cs ({ s with connection := some s.nextHandle,
                                     nextHandle := s.nextHandle + 1 }) ds).2) := by
      simp [processAll, hpm]
    rw [e]
    simp only [Option.isSome_some, if_pos] at ih2
    refine ⟨?_, ?_, ?_, ?_⟩
    · cases hc : s.connection <;>
        simp [List.countP_append, List.countP_cons, List.countP_nil,
              isCreateConn, releaseOf, hc, ih1, Nat.add_comm]
    · cases hc : s.connection <;>
        simp [List.countP_append, List.countP_cons, List.countP_nil,
              isReleaseConn, releaseOf, hc, ih2]
    · simp [ih3]
      omega
    · rw [ih4]
      cases ds <;> simp
      omega

/-- C2: starting with no connection, a sequence of N well-formed offers
creates exactly N handles, releases exactly N-1 of them (each new offer
replacing the previous handle), and leaves the session holding the last
created handle — at most one handle is live at any time, held in the
single nullable `connection` field. -/
theorem repeated_offers_last_wins
    (cs : ConnectionSettings) (s : Session) (docs : List Json)
    (hconn : s.connection = none) (hall : ∀ d ∈ docs, IsOffer d) :
    ((processAll cs s docs).2.countP isCreateConn = docs.length) ∧
    ((processAll cs s docs).2.countP isReleaseConn = docs.length - 1) ∧
    ((processAll cs s docs).1.connection =
      if docs.isEmpty then none
      else some (s.nextHandle + docs.length - 1)) := by
  obtain ⟨h1, h2, _h3, h4⟩ := processAll_offers cs docs s hall
  rw [hconn] at h2 h4
  simp only [Option.isSome_none, Bool.false_eq_true, if_false] at h2
  exact ⟨h1, h2, h4⟩

/-- C2 witness: three identical well-formed offers at a concrete fresh
session create three handles, release two, and leave handle 2 live. -/
theorem repeated_offers_witness :
    ((processAll cs0 s0 [offerDoc, offerDoc, offerDoc]).2.countP isCreateConn = 3) ∧
    ((processAll cs0 s0 [offerDoc, offerDoc, offerDoc]).2.countP isReleaseConn = 2) ∧
    ((processAll cs0 s0 [offerDoc, offerDoc, offerDoc]).1.connection = some 2) := by
  have h := repeated_offers_last_wins cs0 s0 [offerDoc, offerDoc, offerDoc]
    rfl (by decide)
  simpa using h
